import Mathlib

/-!
Verification of the timepuff timestamp/timezone conversion engine (src/app.py).

The Python source is shallowly embedded below.  Conventions:
* Python `int` is embedded as `Int` (arbitrary precision), `datetime` naive
  values as their Gregorian calendar fields, and absolute instants as integer
  Unix seconds.
* CPython's `datetime` calendar arithmetic (`toordinal`, `fromordinal`,
  `timestamp`) is embedded by the standard proleptic-Gregorian formulas that
  CPython itself uses (`_days_before_year`, the 400/100/4/1 ordinal
  decomposition of `_ord2ymd`).
* Fallible Python code (`raise`) is embedded with `Option`: `none` is an
  uncaught exception.
* `int(float(x))` on integers is embedded exactly: IEEE-754 binary64
  round-to-nearest-even restricted to integer values (`roundToFloat`);
  this is exact integer arithmetic.  The model covers |x| < 2^1024
  (beyond which Python raises OverflowError); every theorem below stays
  far inside that range.
-/

namespace Timepuff

/-! ### Proleptic Gregorian calendar (CPython `datetime` internals) -/

/-- Gregorian leap-year test, as in CPython `datetime._is_leap`. -/
def isLeap (y : Nat) : Bool := y % 4 == 0 && (y % 100 != 0 || y % 400 == 0)

/-- Days in month `m` of year `y` (months 1..12), as in CPython
`datetime._days_in_month`. -/
def daysInMonth (y m : Nat) : Nat :=
  if m = 2 then (if isLeap y then 29 else 28)
  else if m = 4 ∨ m = 6 ∨ m = 9 ∨ m = 11 then 30
  else 31

/-- Days before January 1 of year `y`, as in CPython
`datetime._days_before_year`. -/
def daysBeforeYear (y : Nat) : Nat :=
  (y - 1) * 365 + (y - 1) / 4 - (y - 1) / 100 + (y - 1) / 400

/-- Days in year `y` before month `m`, as in CPython
`datetime._days_before_month`. -/
def daysBeforeMonth (y m : Nat) : Nat :=
  match m with
  | 0 => 0
  | 1 => 0
  | Nat.succ k => daysBeforeMonth y k + daysInMonth y k

/-- Proleptic Gregorian ordinal (0001-01-01 is ordinal 1), as in CPython
`datetime.toordinal`. -/
def toOrdinal (y m d : Nat) : Nat :=
  daysBeforeYear y + daysBeforeMonth y m + d

/-- Ordinal of the Unix epoch day 1970-01-01 (= 719163). -/
def EPOCH_ORDINAL : Nat := toOrdinal 1970 1 1

/-- Unix seconds of the UTC datetime with the given fields: the value of
CPython `datetime(y, m, d, hh, mi, ss, tzinfo=timezone.utc).timestamp()`
(exact for the whole datetime range, which is far below 2^53 seconds). -/
def utcTimestamp (y m d hh mi ss : Nat) : Int :=
  86400 * ((toOrdinal y m d : Int) - (EPOCH_ORDINAL : Int))
    + 3600 * (hh : Int) + 60 * (mi : Int) + (ss : Int)

/-- Unix seconds of `datetime.min` = 0001-01-01T00:00:00 (= -62135596800). -/
def minTimestamp : Int := utcTimestamp 1 1 1 0 0 0

/-- Unix seconds of `datetime.max` whole second = 9999-12-31T23:59:59
(= 253402300799). -/
def maxTimestamp : Int := utcTimestamp 9999 12 31 23 59 59

/-- Validity of naive datetime fields: exactly the checks of the
`datetime` constructor (plus the field ranges that `strptime`'s regular
expressions impose, which this subsumes; see `human_to_epoch` below). -/
def validDateTime (y m d hh mi ss : Nat) : Bool :=
  1 ≤ y && y ≤ 9999 && 1 ≤ m && m ≤ 12 && 1 ≤ d && d ≤ daysInMonth y m &&
  hh ≤ 23 && mi ≤ 59 && ss ≤ 59

/-! ### SWET (alternate epoch) transform -/

/-- Fuel-based ⌊log2⌋ (structurally recursive so that the kernel can
evaluate it; correct for arguments below 2^fuel). -/
def log2Fueled : Nat → Nat → Nat
  | 0, _ => 0
  | fuel + 1, n => if n < 2 then 0 else log2Fueled fuel (n / 2) + 1

/-- `int(float(n))` for a Python integer `n`: round to the nearest IEEE-754
binary64 (ties to even significand), which is the identity for
|n| ≤ 2^53 and otherwise rounds to the nearest multiple of the ulp
2^(⌊log2 |n|⌋ - 52).  Exact integer arithmetic; no floating point
(fuel 1100 covers the whole non-overflowing float range |n| < 2^1024). -/
def roundToFloat (n : Int) : Int :=
  let a := n.natAbs
  if a ≤ 9007199254740992 then n
  else
    let e := log2Fueled 1100 a - 52
    let q := a / 2 ^ e
    let r := a % 2 ^ e
    let h := 2 ^ (e - 1)
    let q' := if h < r then q + 1 else if r < h then q else if q % 2 = 1 then q + 1 else q
    if n < 0 then -(q' * 2 ^ e : Int) else (q' * 2 ^ e : Int)

/-- `SWET_EPOCH_UNIX = int(datetime(1977, 5, 26, 0, 0, 0, tzinfo=timezone.utc).timestamp())`. -/
def SWET_EPOCH_UNIX : Int := utcTimestamp 1977 5 26 0 0 0

/-- `unix_to_swet(unix_timestamp) = int(float(unix_timestamp)) - SWET_EPOCH_UNIX`. -/
def unix_to_swet (unix_timestamp : Int) : Int :=
  roundToFloat unix_timestamp - SWET_EPOCH_UNIX

/-- `swet_to_unix(swet_timestamp) = int(float(swet_timestamp)) + SWET_EPOCH_UNIX`. -/
def swet_to_unix (swet_timestamp : Int) : Int :=
  roundToFloat swet_timestamp + SWET_EPOCH_UNIX

/-! ### DateTime format parsing (`human_to_epoch`, src/app.py lines 146-189)

The four branches each run `re.match` (structural shape) and then
`datetime.strptime` + the `datetime` constructor.  Because every structural
pattern fixes the field widths, `strptime`'s flexible field regexes reduce
to plain range checks on the extracted digits; a field out of range makes
`strptime`/`datetime` raise `ValueError`, exactly like the final `else`
branch.  The embedding therefore extracts the digit fields per format
(`humanRawFields`) and gates them with `validDateTime`.  `\d` is embedded
as the ASCII digit test (non-ASCII Unicode digits are out of scope). -/

/-- ASCII digit test (Python regex `\d` on the inputs in scope). -/
def isDig (c : Char) : Bool := 48 ≤ c.toNat && c.toNat ≤ 57

/-- Decimal value of a digit string. -/
def toNum (l : List Char) : Nat := l.foldl (fun a c => 10 * a + (c.toNat - 48)) 0

/-- `len`-digit number starting at position `start`. -/
def numAt (l : List Char) (start len : Nat) : Nat := toNum ((l.drop start).take len)

/-- Structural shape of `^\d{4}-\d{2}-\d{2}-\d{6}$`. -/
def matches1 (l : List Char) : Bool :=
  l.length == 17 && (l.take 4).all isDig && l.getD 4 ' ' == '-' &&
  ((l.drop 5).take 2).all isDig && l.getD 7 ' ' == '-' &&
  ((l.drop 8).take 2).all isDig && l.getD 10 ' ' == '-' &&
  ((l.drop 11).take 6).all isDig

/-- Structural shape of `^\d{14}$`. -/
def matches2 (l : List Char) : Bool := l.length == 14 && l.all isDig

/-- Structural shape of `^\d{12}$`. -/
def matches3 (l : List Char) : Bool := l.length == 12 && l.all isDig

/-- Fields of `YYYY-MM-DD-HHMMSS`. -/
def fields1 (l : List Char) : Nat × Nat × Nat × Nat × Nat × Nat :=
  (numAt l 0 4, numAt l 5 2, numAt l 8 2, numAt l 11 2, numAt l 13 2, numAt l 15 2)

/-- Fields of `YYYYMMDDHHMMSS`. -/
def fields2 (l : List Char) : Nat × Nat × Nat × Nat × Nat × Nat :=
  (numAt l 0 4, numAt l 4 2, numAt l 6 2, numAt l 8 2, numAt l 10 2, numAt l 12 2)

/-- Fields of `YYYYMMDDHHMM` (`dt.replace(second=0)` in the source makes
the seconds 0). -/
def fields3 (l : List Char) : Nat × Nat × Nat × Nat × Nat × Nat :=
  (numAt l 0 4, numAt l 4 2, numAt l 6 2, numAt l 8 2, numAt l 10 2, 0)

/-- Structural parse of `^\d{1,2}/\d{1,2}/\d{4} \d{1,2}:\d{2}$`
(`MM/DD/YYYY HH:MM`); returns (year, month, day, hour, minute). -/
def parse4 (l : List Char) : Option (Nat × Nat × Nat × Nat × Nat) :=
  let (mo, r1) := l.span isDig
  match r1 with
  | '/' :: r2 =>
    let (dd, r3) := r2.span isDig
    match r3 with
    | '/' :: r4 =>
      let (yy, r5) := r4.span isDig
      match r5 with
      | ' ' :: r6 =>
        let (hh, r7) := r6.span isDig
        match r7 with
        | ':' :: r8 =>
          let (mi, r9) := r8.span isDig
          if 1 ≤ mo.length && mo.length ≤ 2 && 1 ≤ dd.length && dd.length ≤ 2 &&
             yy.length == 4 && 1 ≤ hh.length && hh.length ≤ 2 && mi.length == 2 &&
             r9.isEmpty then
            some (toNum yy, toNum mo, toNum dd, toNum hh, toNum mi)
          else none
        | _ => none
      | _ => none
    | _ => none
  | _ => none

/-- The structurally extracted naive datetime fields, per the source's
`if`/`elif` priority order, before calendar validation. -/
def humanRawFields (s : String) : Option (Nat × Nat × Nat × Nat × Nat × Nat) :=
  let l := s.data
  if matches1 l then some (fields1 l)
  else if matches2 l then some (fields2 l)
  else if matches3 l then some (fields3 l)
  else match parse4 l with
    | some (y, mo, dd, hh, mi) => some (y, mo, dd, hh, mi, 0)
    | none => none

/-- Parsed and calendar-validated fields: `none` is the `ValueError` raised
by `human_to_epoch` (either the explicit one of the `else` branch or the
one `strptime`/`datetime` raises on an out-of-range field). -/
def humanFields (s : String) : Option (Nat × Nat × Nat × Nat × Nat × Nat) :=
  match humanRawFields s with
  | some (y, mo, dd, hh, mi, ss) =>
    if validDateTime y mo dd hh mi ss then some (y, mo, dd, hh, mi, ss) else none
  | none => none

/-! ### Timezone resolution (`normalize_timezone`, src/app.py lines 56-129) -/

/-- Python `str.lower` (ASCII range; no input in scope has non-ASCII cased
letters). -/
def pyLowerChar (c : Char) : Char :=
  if 'A' ≤ c ∧ c ≤ 'Z' then Char.ofNat (c.toNat + 32) else c

/-- Python `str.lower` on a string. -/
def pyLower (s : String) : String := ⟨s.data.map pyLowerChar⟩

/-- Python `str.strip` whitespace (ASCII whitespace). -/
def isPySpace (c : Char) : Bool :=
  c == ' ' || c == '\t' || c == '\n' || c == '\r' || c.toNat == 11 || c.toNat == 12

/-- Python `str.strip`. -/
def pyStrip (s : String) : String :=
  ⟨((s.data.dropWhile isPySpace).reverse.dropWhile isPySpace).reverse⟩

/-- The abbreviation / friendly-name table `tz_map` of `normalize_timezone`. -/
def tzMap : List (String × String) := [
  ("pacific", "America/Los_Angeles"), ("pt", "America/Los_Angeles"),
  ("pst", "America/Los_Angeles"), ("pdt", "America/Los_Angeles"),
  ("eastern", "America/New_York"), ("et", "America/New_York"),
  ("est", "America/New_York"), ("edt", "America/New_York"),
  ("central", "America/Chicago"), ("ct", "America/Chicago"),
  ("cst", "America/Chicago"), ("cdt", "America/Chicago"),
  ("mountain", "America/Denver"), ("mt", "America/Denver"),
  ("mst", "America/Denver"), ("mdt", "America/Denver"),
  ("moscow", "Europe/Moscow"), ("msk", "Europe/Moscow"),
  ("london", "Europe/London"), ("gmt", "Europe/London"),
  ("paris", "Europe/Paris"), ("cet", "Europe/Paris"),
  ("berlin", "Europe/Berlin"),
  ("tokyo", "Asia/Tokyo"), ("jst", "Asia/Tokyo"),
  ("shanghai", "Asia/Shanghai"),
  ("dubai", "Asia/Dubai"), ("gst", "Asia/Dubai"),
  ("mumbai", "Asia/Kolkata"), ("ist", "Asia/Kolkata"),
  ("sydney", "Australia/Sydney"), ("aest", "Australia/Sydney"),
  ("auckland", "Pacific/Auckland"), ("nzst", "Pacific/Auckland")]


set_option maxHeartbeats 2000000 in
/-- The host timezone database's canonical zone identifiers, lower-cased:
the set against which `pytz.timezone` validates a token
(case-insensitively, via its lower-cased name lookup).  Mirrors the IANA
zone database installed on the host. -/
def validZoneNamesLower : List String := [
  "africa/abidjan",
  "africa/accra",
  "africa/addis_ababa",
  "africa/algiers",
  "africa/asmara",
  "africa/asmera",
  "africa/bamako",
  "africa/bangui",
  "africa/banjul",
  "africa/bissau",
  "africa/blantyre",
  "africa/brazzaville",
  "africa/bujumbura",
  "africa/cairo",
  "africa/casablanca",
  "africa/ceuta",
  "africa/conakry",
  "africa/dakar",
  "africa/dar_es_salaam",
  "africa/djibouti",
  "africa/douala",
  "africa/el_aaiun",
  "africa/freetown",
  "africa/gaborone",
  "africa/harare",
  "africa/johannesburg",
  "africa/juba",
  "africa/kampala",
  "africa/khartoum",
  "africa/kigali",
  "africa/kinshasa",
  "africa/lagos",
  "africa/libreville",
  "africa/lome",
  "africa/luanda",
  "africa/lubumbashi",
  "africa/lusaka",
  "africa/malabo",
  "africa/maputo",
  "africa/maseru",
  "africa/mbabane",
  "africa/mogadishu",
  "africa/monrovia",
  "africa/nairobi",
  "africa/ndjamena",
  "africa/niamey",
  "africa/nouakchott",
  "africa/ouagadougou",
  "africa/porto-novo",
  "africa/sao_tome",
  "africa/timbuktu",
  "africa/tripoli",
  "africa/tunis",
  "africa/windhoek",
  "america/adak",
  "america/anchorage",
  "america/anguilla",
  "america/antigua",
  "america/araguaina",
  "america/argentina/buenos_aires",
  "america/argentina/catamarca",
  "america/argentina/comodrivadavia",
  "america/argentina/cordoba",
  "america/argentina/jujuy",
  "america/argentina/la_rioja",
  "america/argentina/mendoza",
  "america/argentina/rio_gallegos",
  "america/argentina/salta",
  "america/argentina/san_juan",
  "america/argentina/san_luis",
  "america/argentina/tucuman",
  "america/argentina/ushuaia",
  "america/aruba",
  "america/asuncion",
  "america/atikokan",
  "america/atka",
  "america/bahia",
  "america/bahia_banderas",
  "america/barbados",
  "america/belem",
  "america/belize",
  "america/blanc-sablon",
  "america/boa_vista",
  "america/bogota",
  "america/boise",
  "america/buenos_aires",
  "america/cambridge_bay",
  "america/campo_grande",
  "america/cancun",
  "america/caracas",
  "america/catamarca",
  "america/cayenne",
  "america/cayman",
  "america/chicago",
  "america/chihuahua",
  "america/ciudad_juarez",
  "america/coral_harbour",
  "america/cordoba",
  "america/costa_rica",
  "america/creston",
  "america/cuiaba",
  "america/curacao",
  "america/danmarkshavn",
  "america/dawson",
  "america/dawson_creek",
  "america/denver",
  "america/detroit",
  "america/dominica",
  "america/edmonton",
  "america/eirunepe",
  "america/el_salvador",
  "america/ensenada",
  "america/fort_nelson",
  "america/fort_wayne",
  "america/fortaleza",
  "america/glace_bay",
  "america/godthab",
  "america/goose_bay",
  "america/grand_turk",
  "america/grenada",
  "america/guadeloupe",
  "america/guatemala",
  "america/guayaquil",
  "america/guyana",
  "america/halifax",
  "america/havana",
  "america/hermosillo",
  "america/indiana/indianapolis",
  "america/indiana/knox",
  "america/indiana/marengo",
  "america/indiana/petersburg",
  "america/indiana/tell_city",
  "america/indiana/vevay",
  "america/indiana/vincennes",
  "america/indiana/winamac",
  "america/indianapolis",
  "america/inuvik",
  "america/iqaluit",
  "america/jamaica",
  "america/jujuy",
  "america/juneau",
  "america/kentucky/louisville",
  "america/kentucky/monticello",
  "america/knox_in",
  "america/kralendijk",
  "america/la_paz",
  "america/lima",
  "america/los_angeles",
  "america/louisville",
  "america/lower_princes",
  "america/maceio",
  "america/managua",
  "america/manaus",
  "america/marigot",
  "america/martinique",
  "america/matamoros",
  "america/mazatlan",
  "america/mendoza",
  "america/menominee",
  "america/merida",
  "america/metlakatla",
  "america/mexico_city",
  "america/miquelon",
  "america/moncton",
  "america/monterrey",
  "america/montevideo",
  "america/montreal",
  "america/montserrat",
  "america/nassau",
  "america/new_york",
  "america/nipigon",
  "america/nome",
  "america/noronha",
  "america/north_dakota/beulah",
  "america/north_dakota/center",
  "america/north_dakota/new_salem",
  "america/nuuk",
  "america/ojinaga",
  "america/panama",
  "america/pangnirtung",
  "america/paramaribo",
  "america/phoenix",
  "america/port-au-prince",
  "america/port_of_spain",
  "america/porto_acre",
  "america/porto_velho",
  "america/puerto_rico",
  "america/punta_arenas",
  "america/rainy_river",
  "america/rankin_inlet",
  "america/recife",
  "america/regina",
  "america/resolute",
  "america/rio_branco",
  "america/rosario",
  "america/santa_isabel",
  "america/santarem",
  "america/santiago",
  "america/santo_domingo",
  "america/sao_paulo",
  "america/scoresbysund",
  "america/shiprock",
  "america/sitka",
  "america/st_barthelemy",
  "america/st_johns",
  "america/st_kitts",
  "america/st_lucia",
  "america/st_thomas",
  "america/st_vincent",
  "america/swift_current",
  "america/tegucigalpa",
  "america/thule",
  "america/thunder_bay",
  "america/tijuana",
  "america/toronto",
  "america/tortola",
  "america/vancouver",
  "america/virgin",
  "america/whitehorse",
  "america/winnipeg",
  "america/yakutat",
  "america/yellowknife",
  "antarctica/casey",
  "antarctica/davis",
  "antarctica/dumontdurville",
  "antarctica/macquarie",
  "antarctica/mawson",
  "antarctica/mcmurdo",
  "antarctica/palmer",
  "antarctica/rothera",
  "antarctica/south_pole",
  "antarctica/syowa",
  "antarctica/troll",
  "antarctica/vostok",
  "arctic/longyearbyen",
  "asia/aden",
  "asia/almaty",
  "asia/amman",
  "asia/anadyr",
  "asia/aqtau",
  "asia/aqtobe",
  "asia/ashgabat",
  "asia/ashkhabad",
  "asia/atyrau",
  "asia/baghdad",
  "asia/bahrain",
  "asia/baku",
  "asia/bangkok",
  "asia/barnaul",
  "asia/beirut",
  "asia/bishkek",
  "asia/brunei",
  "asia/calcutta",
  "asia/chita",
  "asia/choibalsan",
  "asia/chongqing",
  "asia/chungking",
  "asia/colombo",
  "asia/dacca",
  "asia/damascus",
  "asia/dhaka",
  "asia/dili",
  "asia/dubai",
  "asia/dushanbe",
  "asia/famagusta",
  "asia/gaza",
  "asia/harbin",
  "asia/hebron",
  "asia/ho_chi_minh",
  "asia/hong_kong",
  "asia/hovd",
  "asia/irkutsk",
  "asia/istanbul",
  "asia/jakarta",
  "asia/jayapura",
  "asia/jerusalem",
  "asia/kabul",
  "asia/kamchatka",
  "asia/karachi",
  "asia/kashgar",
  "asia/kathmandu",
  "asia/katmandu",
  "asia/khandyga",
  "asia/kolkata",
  "asia/krasnoyarsk",
  "asia/kuala_lumpur",
  "asia/kuching",
  "asia/kuwait",
  "asia/macao",
  "asia/macau",
  "asia/magadan",
  "asia/makassar",
  "asia/manila",
  "asia/muscat",
  "asia/nicosia",
  "asia/novokuznetsk",
  "asia/novosibirsk",
  "asia/omsk",
  "asia/oral",
  "asia/phnom_penh",
  "asia/pontianak",
  "asia/pyongyang",
  "asia/qatar",
  "asia/qostanay",
  "asia/qyzylorda",
  "asia/rangoon",
  "asia/riyadh",
  "asia/saigon",
  "asia/sakhalin",
  "asia/samarkand",
  "asia/seoul",
  "asia/shanghai",
  "asia/singapore",
  "asia/srednekolymsk",
  "asia/taipei",
  "asia/tashkent",
  "asia/tbilisi",
  "asia/tehran",
  "asia/tel_aviv",
  "asia/thimbu",
  "asia/thimphu",
  "asia/tokyo",
  "asia/tomsk",
  "asia/ujung_pandang",
  "asia/ulaanbaatar",
  "asia/ulan_bator",
  "asia/urumqi",
  "asia/ust-nera",
  "asia/vientiane",
  "asia/vladivostok",
  "asia/yakutsk",
  "asia/yangon",
  "asia/yekaterinburg",
  "asia/yerevan",
  "atlantic/azores",
  "atlantic/bermuda",
  "atlantic/canary",
  "atlantic/cape_verde",
  "atlantic/faeroe",
  "atlantic/faroe",
  "atlantic/jan_mayen",
  "atlantic/madeira",
  "atlantic/reykjavik",
  "atlantic/south_georgia",
  "atlantic/st_helena",
  "atlantic/stanley",
  "australia/act",
  "australia/adelaide",
  "australia/brisbane",
  "australia/broken_hill",
  "australia/canberra",
  "australia/currie",
  "australia/darwin",
  "australia/eucla",
  "australia/hobart",
  "australia/lhi",
  "australia/lindeman",
  "australia/lord_howe",
  "australia/melbourne",
  "australia/north",
  "australia/nsw",
  "australia/perth",
  "australia/queensland",
  "australia/south",
  "australia/sydney",
  "australia/tasmania",
  "australia/victoria",
  "australia/west",
  "australia/yancowinna",
  "brazil/acre",
  "brazil/denoronha",
  "brazil/east",
  "brazil/west",
  "canada/atlantic",
  "canada/central",
  "canada/eastern",
  "canada/mountain",
  "canada/newfoundland",
  "canada/pacific",
  "canada/saskatchewan",
  "canada/yukon",
  "cet",
  "chile/continental",
  "chile/easterisland",
  "cst6cdt",
  "cuba",
  "eet",
  "egypt",
  "eire",
  "est",
  "est5edt",
  "etc/gmt",
  "etc/gmt+0",
  "etc/gmt+1",
  "etc/gmt+10",
  "etc/gmt+11",
  "etc/gmt+12",
  "etc/gmt+2",
  "etc/gmt+3",
  "etc/gmt+4",
  "etc/gmt+5",
  "etc/gmt+6",
  "etc/gmt+7",
  "etc/gmt+8",
  "etc/gmt+9",
  "etc/gmt-0",
  "etc/gmt-1",
  "etc/gmt-10",
  "etc/gmt-11",
  "etc/gmt-12",
  "etc/gmt-13",
  "etc/gmt-14",
  "etc/gmt-2",
  "etc/gmt-3",
  "etc/gmt-4",
  "etc/gmt-5",
  "etc/gmt-6",
  "etc/gmt-7",
  "etc/gmt-8",
  "etc/gmt-9",
  "etc/gmt0",
  "etc/greenwich",
  "etc/uct",
  "etc/universal",
  "etc/utc",
  "etc/zulu",
  "europe/amsterdam",
  "europe/andorra",
  "europe/astrakhan",
  "europe/athens",
  "europe/belfast",
  "europe/belgrade",
  "europe/berlin",
  "europe/bratislava",
  "europe/brussels",
  "europe/bucharest",
  "europe/budapest",
  "europe/busingen",
  "europe/chisinau",
  "europe/copenhagen",
  "europe/dublin",
  "europe/gibraltar",
  "europe/guernsey",
  "europe/helsinki",
  "europe/isle_of_man",
  "europe/istanbul",
  "europe/jersey",
  "europe/kaliningrad",
  "europe/kiev",
  "europe/kirov",
  "europe/kyiv",
  "europe/lisbon",
  "europe/ljubljana",
  "europe/london",
  "europe/luxembourg",
  "europe/madrid",
  "europe/malta",
  "europe/mariehamn",
  "europe/minsk",
  "europe/monaco",
  "europe/moscow",
  "europe/nicosia",
  "europe/oslo",
  "europe/paris",
  "europe/podgorica",
  "europe/prague",
  "europe/riga",
  "europe/rome",
  "europe/samara",
  "europe/san_marino",
  "europe/sarajevo",
  "europe/saratov",
  "europe/simferopol",
  "europe/skopje",
  "europe/sofia",
  "europe/stockholm",
  "europe/tallinn",
  "europe/tirane",
  "europe/tiraspol",
  "europe/ulyanovsk",
  "europe/uzhgorod",
  "europe/vaduz",
  "europe/vatican",
  "europe/vienna",
  "europe/vilnius",
  "europe/volgograd",
  "europe/warsaw",
  "europe/zagreb",
  "europe/zaporozhye",
  "europe/zurich",
  "factory",
  "gb",
  "gb-eire",
  "gmt",
  "gmt+0",
  "gmt-0",
  "gmt0",
  "greenwich",
  "hongkong",
  "hst",
  "iceland",
  "indian/antananarivo",
  "indian/chagos",
  "indian/christmas",
  "indian/cocos",
  "indian/comoro",
  "indian/kerguelen",
  "indian/mahe",
  "indian/maldives",
  "indian/mauritius",
  "indian/mayotte",
  "indian/reunion",
  "iran",
  "israel",
  "jamaica",
  "japan",
  "kwajalein",
  "libya",
  "localtime",
  "met",
  "mexico/bajanorte",
  "mexico/bajasur",
  "mexico/general",
  "mst",
  "mst7mdt",
  "navajo",
  "nz",
  "nz-chat",
  "pacific/apia",
  "pacific/auckland",
  "pacific/bougainville",
  "pacific/chatham",
  "pacific/chuuk",
  "pacific/easter",
  "pacific/efate",
  "pacific/enderbury",
  "pacific/fakaofo",
  "pacific/fiji",
  "pacific/funafuti",
  "pacific/galapagos",
  "pacific/gambier",
  "pacific/guadalcanal",
  "pacific/guam",
  "pacific/honolulu",
  "pacific/johnston",
  "pacific/kanton",
  "pacific/kiritimati",
  "pacific/kosrae",
  "pacific/kwajalein",
  "pacific/majuro",
  "pacific/marquesas",
  "pacific/midway",
  "pacific/nauru",
  "pacific/niue",
  "pacific/norfolk",
  "pacific/noumea",
  "pacific/pago_pago",
  "pacific/palau",
  "pacific/pitcairn",
  "pacific/pohnpei",
  "pacific/ponape",
  "pacific/port_moresby",
  "pacific/rarotonga",
  "pacific/saipan",
  "pacific/samoa",
  "pacific/tahiti",
  "pacific/tarawa",
  "pacific/tongatapu",
  "pacific/truk",
  "pacific/wake",
  "pacific/wallis",
  "pacific/yap",
  "poland",
  "portugal",
  "prc",
  "pst8pdt",
  "roc",
  "rok",
  "singapore",
  "turkey",
  "uct",
  "universal",
  "us/alaska",
  "us/aleutian",
  "us/arizona",
  "us/central",
  "us/east-indiana",
  "us/eastern",
  "us/hawaii",
  "us/indiana-starke",
  "us/michigan",
  "us/mountain",
  "us/pacific",
  "us/samoa",
  "utc",
  "w-su",
  "wet",
  "zulu"]

set_option maxHeartbeats 2000000 in
/-- `pytz` transition data for a zone: `(utc_transition_time, utcoffset,
tzname)` triples sorted by time, with a leading `datetime.min` sentinel
carrying the pre-first-transition (LMT) info, offsets rounded to whole
minutes as `pytz`'s reader does.  Entry `i` is in effect from its time
until the next entry's time (`idx = max(0, bisect_right(times, t) - 1)`). -/
def LA_table : List (Int × Int × String) := [
  (-62135596800, -28380, "LMT"),
  (-2717640000, -28800, "PST"),
  (-1633269600, -25200, "PDT"),
  (-1615129200, -28800, "PST"),
  (-1601820000, -25200, "PDT"),
  (-1583679600, -28800, "PST"),
  (-880207200, -25200, "PWT"),
  (-769395600, -25200, "PPT"),
  (-765385200, -28800, "PST"),
  (-687967140, -25200, "PDT"),
  (-662655600, -28800, "PST"),
  (-620838000, -25200, "PDT"),
  (-608137200, -28800, "PST"),
  (-589388400, -25200, "PDT"),
  (-576082800, -28800, "PST"),
  (-557938800, -25200, "PDT"),
  (-544633200, -28800, "PST"),
  (-526489200, -25200, "PDT"),
  (-513183600, -28800, "PST"),
  (-495039600, -25200, "PDT"),
  (-481734000, -28800, "PST"),
  (-463590000, -25200, "PDT"),
  (-450284400, -28800, "PST"),
  (-431535600, -25200, "PDT"),
  (-418230000, -28800, "PST"),
  (-400086000, -25200, "PDT"),
  (-386780400, -28800, "PST"),
  (-368636400, -25200, "PDT"),
  (-355330800, -28800, "PST"),
  (-337186800, -25200, "PDT"),
  (-323881200, -28800, "PST"),
  (-305737200, -25200, "PDT"),
  (-292431600, -28800, "PST"),
  (-273682800, -25200, "PDT"),
  (-260982000, -28800, "PST"),
  (-242233200, -25200, "PDT"),
  (-226508400, -28800, "PST"),
  (-210783600, -25200, "PDT"),
  (-195058800, -28800, "PST"),
  (-179334000, -25200, "PDT"),
  (-163609200, -28800, "PST"),
  (-147884400, -25200, "PDT"),
  (-131554800, -28800, "PST"),
  (-116434800, -25200, "PDT"),
  (-100105200, -28800, "PST"),
  (-84376800, -25200, "PDT"),
  (-68655600, -28800, "PST"),
  (-52927200, -25200, "PDT"),
  (-37206000, -28800, "PST"),
  (-21477600, -25200, "PDT"),
  (-5756400, -28800, "PST"),
  (9972000, -25200, "PDT"),
  (25693200, -28800, "PST"),
  (41421600, -25200, "PDT"),
  (57747600, -28800, "PST"),
  (73476000, -25200, "PDT"),
  (89197200, -28800, "PST"),
  (104925600, -25200, "PDT"),
  (120646800, -28800, "PST"),
  (126698400, -25200, "PDT"),
  (152096400, -28800, "PST"),
  (162381600, -25200, "PDT"),
  (183546000, -28800, "PST"),
  (199274400, -25200, "PDT"),
  (215600400, -28800, "PST"),
  (230724000, -25200, "PDT"),
  (247050000, -28800, "PST"),
  (262778400, -25200, "PDT"),
  (278499600, -28800, "PST"),
  (294228000, -25200, "PDT"),
  (309949200, -28800, "PST"),
  (325677600, -25200, "PDT"),
  (341398800, -28800, "PST"),
  (357127200, -25200, "PDT"),
  (372848400, -28800, "PST"),
  (388576800, -25200, "PDT"),
  (404902800, -28800, "PST"),
  (420026400, -25200, "PDT"),
  (436352400, -28800, "PST"),
  (452080800, -25200, "PDT"),
  (467802000, -28800, "PST"),
  (483530400, -25200, "PDT"),
  (499251600, -28800, "PST"),
  (514980000, -25200, "PDT"),
  (530701200, -28800, "PST"),
  (544615200, -25200, "PDT"),
  (562150800, -28800, "PST"),
  (576064800, -25200, "PDT"),
  (594205200, -28800, "PST"),
  (607514400, -25200, "PDT"),
  (625654800, -28800, "PST"),
  (638964000, -25200, "PDT"),
  (657104400, -28800, "PST"),
  (671018400, -25200, "PDT"),
  (688554000, -28800, "PST"),
  (702468000, -25200, "PDT"),
  (720003600, -28800, "PST"),
  (733917600, -25200, "PDT"),
  (752058000, -28800, "PST"),
  (765367200, -25200, "PDT"),
  (783507600, -28800, "PST"),
  (796816800, -25200, "PDT"),
  (814957200, -28800, "PST"),
  (828871200, -25200, "PDT"),
  (846406800, -28800, "PST"),
  (860320800, -25200, "PDT"),
  (877856400, -28800, "PST"),
  (891770400, -25200, "PDT"),
  (909306000, -28800, "PST"),
  (923220000, -25200, "PDT"),
  (941360400, -28800, "PST"),
  (954669600, -25200, "PDT"),
  (972810000, -28800, "PST"),
  (986119200, -25200, "PDT"),
  (1004259600, -28800, "PST"),
  (1018173600, -25200, "PDT"),
  (1035709200, -28800, "PST"),
  (1049623200, -25200, "PDT"),
  (1067158800, -28800, "PST"),
  (1081072800, -25200, "PDT"),
  (1099213200, -28800, "PST"),
  (1112522400, -25200, "PDT"),
  (1130662800, -28800, "PST"),
  (1143972000, -25200, "PDT"),
  (1162112400, -28800, "PST"),
  (1173607200, -25200, "PDT"),
  (1194166800, -28800, "PST"),
  (1205056800, -25200, "PDT"),
  (1225616400, -28800, "PST"),
  (1236506400, -25200, "PDT"),
  (1257066000, -28800, "PST"),
  (1268560800, -25200, "PDT"),
  (1289120400, -28800, "PST"),
  (1300010400, -25200, "PDT"),
  (1320570000, -28800, "PST"),
  (1331460000, -25200, "PDT"),
  (1352019600, -28800, "PST"),
  (1362909600, -25200, "PDT"),
  (1383469200, -28800, "PST"),
  (1394359200, -25200, "PDT"),
  (1414918800, -28800, "PST"),
  (1425808800, -25200, "PDT"),
  (1446368400, -28800, "PST"),
  (1457863200, -25200, "PDT"),
  (1478422800, -28800, "PST"),
  (1489312800, -25200, "PDT"),
  (1509872400, -28800, "PST"),
  (1520762400, -25200, "PDT"),
  (1541322000, -28800, "PST"),
  (1552212000, -25200, "PDT"),
  (1572771600, -28800, "PST"),
  (1583661600, -25200, "PDT"),
  (1604221200, -28800, "PST"),
  (1615716000, -25200, "PDT"),
  (1636275600, -28800, "PST"),
  (1647165600, -25200, "PDT"),
  (1667725200, -28800, "PST"),
  (1678615200, -25200, "PDT"),
  (1699174800, -28800, "PST"),
  (1710064800, -25200, "PDT"),
  (1730624400, -28800, "PST"),
  (1741514400, -25200, "PDT"),
  (1762074000, -28800, "PST"),
  (1772964000, -25200, "PDT"),
  (1793523600, -28800, "PST"),
  (1805018400, -25200, "PDT"),
  (1825578000, -28800, "PST"),
  (1836468000, -25200, "PDT"),
  (1857027600, -28800, "PST"),
  (1867917600, -25200, "PDT"),
  (1888477200, -28800, "PST"),
  (1899367200, -25200, "PDT"),
  (1919926800, -28800, "PST"),
  (1930816800, -25200, "PDT"),
  (1951376400, -28800, "PST"),
  (1962871200, -25200, "PDT"),
  (1983430800, -28800, "PST"),
  (1994320800, -25200, "PDT"),
  (2014880400, -28800, "PST"),
  (2025770400, -25200, "PDT"),
  (2046330000, -28800, "PST"),
  (2057220000, -25200, "PDT"),
  (2077779600, -28800, "PST"),
  (2088669600, -25200, "PDT"),
  (2109229200, -28800, "PST"),
  (2120119200, -25200, "PDT"),
  (2140678800, -28800, "PST")]

/-- `pytz` transition-info lookup: the entry in effect at UTC time `x`,
i.e. the last entry whose time is ≤ `x` (the first entry if `x` precedes
every listed time, per `max(0, bisect_right(...) - 1)`). -/
def lookupInfo : List (Int × Int × String) → Int → Int × String
  | [], _ => (0, "")
  | [(_, o, nm)], _ => (o, nm)
  | (_, o, nm) :: (t2, o2, n2) :: rest, x =>
    if x < t2 then (o, nm) else lookupInfo ((t2, o2, n2) :: rest) x

/-- UTC offset in effect at UTC time `x`. -/
def offAt (tbl : List (Int × Int × String)) (x : Int) : Int := (lookupInfo tbl x).1

/-- One probe of `pytz`'s `DstTzInfo.localize(dt, is_dst=None)` loop, for
naive wall-clock seconds `n` and probe shift `δ` (±1 day):
`idx = max(0, bisect_right(times, dt + delta) - 1)`, then
`tzinfo.normalize(dt.replace(tzinfo=tzinfo))` (subtract the probed offset,
run `fromutc`, i.e. look the offset up again at the resulting UTC time)
and keep the result as a candidate when its wall time comes back equal.
`none` = an OverflowError from `datetime` arithmetic leaving the
`datetime.min`..`datetime.max` range; `some none` = no candidate;
`some (some off)` = candidate with offset `off`. -/
def pytzProbe (tbl : List (Int × Int × String)) (n δ : Int) : Option (Option Int) :=
  if n + δ < minTimestamp ∨ maxTimestamp < n + δ then none
  else
    let off1 := offAt tbl (n + δ)
    if n - off1 < minTimestamp ∨ maxTimestamp < n - off1 then none
    else
      let off2 := offAt tbl (n - off1)
      if n - off1 + off2 < minTimestamp ∨ maxTimestamp < n - off1 + off2 then none
      else if n - off1 + off2 = n then some (some off2) else some none

/-- `pytz`'s `DstTzInfo.localize(dt, is_dst=None)` on naive wall seconds
`n`: probe with ±1 day; distinct candidate offsets are distinct aware
datetimes in `possible_loc_dt`.  Result `some off` is the chosen UTC
offset; `none` is a raised exception (`AmbiguousTimeError` on two
candidates, `NonExistentTimeError` on zero, or OverflowError), which
`human_to_epoch` catches and turns into the UTC fallback. -/
def pytzLocalize (tbl : List (Int × Int × String)) (n : Int) : Option Int :=
  match pytzProbe tbl n (-86400), pytzProbe tbl n 86400 with
  | none, _ => none
  | _, none => none
  | some none, some none => none
  | some (some o), some none => some o
  | some none, some (some o) => some o
  | some (some o1), some (some o2) => if o1 = o2 then some o1 else none

/-- Transition tables of the embedded zone database, keyed by the
(case-insensitive) canonical identifier.  The table is embedded for the
zone the theorems below exercise (America/Los_Angeles); for other resolved
zones the embedding falls back to the UTC interpretation and no theorem
below constrains those zones' zone-local results. -/
def tzdb (zid : String) : Option (List (Int × Int × String)) :=
  if pyLower zid = "america/los_angeles" then some LA_table else none

/-- `normalize_timezone(tz_input)` (src/app.py lines 56-129): empty input
is falsy → `None`; otherwise lower-case and strip, look up the
abbreviation table, else accept any identifier valid in the host zone
database (returned as the lower-cased token, since the source returns its
own `tz_input` variable), else `None`. -/
def normalize_timezone (tz_input : String) : Option String :=
  if tz_input.isEmpty then none
  else
    let t := pyStrip (pyLower tz_input)
    match tzMap.lookup t with
    | some z => some z
    | none => if validZoneNamesLower.contains t then some t else none

/-- The inner helper `localize_and_convert_to_utc(dt, tz_name)` of
`human_to_epoch`, on naive wall seconds `n`: with a resolved zone,
`tz.localize(dt, is_dst=None)` then convert to UTC seconds; any exception,
an unresolved zone, or no zone falls back to interpreting `n` as UTC. -/
def localize_and_convert_to_utc (n : Int) (tz_name : Option String) : Int :=
  match tz_name with
  | none => n
  | some t =>
    if t.isEmpty then n
    else match normalize_timezone t with
      | none => n
      | some zid =>
        match tzdb zid with
        | none => n
        | some tbl =>
          match pytzLocalize tbl n with
          | some off => n - off
          | none => n

/-- `human_to_epoch(human_str, input_tz)` (src/app.py lines 146-189):
parse one of the four layouts, then localize; `none` is the raised
`ValueError`. -/
def human_to_epoch (human_str : String) (input_tz : Option String) : Option Int :=
  match humanFields human_str with
  | some (y, mo, dd, hh, mi, ss) =>
    some (localize_and_convert_to_utc (utcTimestamp y mo dd hh mi ss) input_tz)
  | none => none


/-! ### Instant → civil fields and formatting (`epoch_to_human`,
src/app.py lines 131-144)

`datetime.fromtimestamp(epoch, tz=timezone.utc)` splits the epoch into a
day ordinal and seconds-of-day and converts the ordinal with CPython's
`_ord2ymd` (400/100/4/1 decomposition); `strftime('%a %Y-%m-%d %H:%M:%S %Z')`
renders with glibc's C-locale conventions: `%a` three-letter English day
name, `%Y` the year in decimal without padding, the rest zero-padded to
two digits. -/

/-- One step list scan for the month search: subtract month lengths until
the day-of-year fits (CPython `_ord2ymd` locates the month equivalently
from the cumulative `_DAYS_BEFORE_MONTH` table). -/
def monthScan : Nat → List Nat → Nat → Nat × Nat
  | m, [], doy => (m, doy)
  | m, dim :: rest, doy =>
    if doy ≤ dim then (m, doy) else monthScan (m + 1) rest (doy - dim)

/-- Split a day-of-year (1-based) into (month, day). -/
def findMonth (y doy : Nat) : Nat × Nat :=
  monthScan 1 [31, if isLeap y then 29 else 28, 31, 30, 31, 30, 31, 31, 30, 31, 30] doy

/-- CPython `_ord2ymd`: proleptic Gregorian ordinal → (year, month, day),
by decomposing into 400/100/4/1-year cycles (with the last-day-of-cycle
special case) and then locating the month. -/
def ord2ymd (n : Nat) : Nat × Nat × Nat :=
  let n0 := n - 1
  let n400 := n0 / 146097
  let r1 := n0 % 146097
  let n100 := r1 / 36524
  let r2 := r1 % 36524
  let n4 := r2 / 1461
  let r3 := r2 % 1461
  let n1 := r3 / 365
  let r4 := r3 % 365
  let year := n400 * 400 + n100 * 100 + n4 * 4 + n1 + 1
  if n1 = 4 ∨ n100 = 4 then (year - 1, 12, 31)
  else
    let md := findMonth year (r4 + 1)
    (year, md.1, md.2)

/-- The character of a decimal digit. -/
def digitChar (n : Nat) : Char := Char.ofNat (48 + n)

/-- Decimal digits of a number (fuel-based so the kernel evaluates it;
fuel 10 covers every value occurring here, all below 10^10). -/
def natDigitsAux : Nat → Nat → List Char
  | 0, _ => []
  | fuel + 1, n =>
    if n < 10 then [digitChar n] else natDigitsAux fuel (n / 10) ++ [digitChar (n % 10)]

/-- glibc `%Y`: the number in decimal, no padding. -/
def natDigits (n : Nat) : List Char := natDigitsAux 10 n

/-- glibc `%m`/`%d`/`%H`/`%M`/`%S`: zero-padded to two digits. -/
def pad2 (n : Nat) : List Char := if n < 10 then ['0', digitChar n] else natDigits n

/-- glibc C-locale `%a` names, indexed by ordinal mod 7 (ordinal 1,
0001-01-01, is a Monday). -/
def dowChars (w : Nat) : List Char :=
  match w with
  | 0 => ['S', 'u', 'n']
  | 1 => ['M', 'o', 'n']
  | 2 => ['T', 'u', 'e']
  | 3 => ['W', 'e', 'd']
  | 4 => ['T', 'h', 'u']
  | 5 => ['F', 'r', 'i']
  | _ => ['S', 'a', 't']

/-- `dt.strftime('%a %Y-%m-%d %H:%M:%S ') + label` for the UTC-anchored
instant `e` (in seconds); `epoch_to_human` renders zone-local times by
passing the shifted instant. -/
def fmtStamp (e : Int) (label : List Char) : String :=
  let ord := (719163 + e / 86400).toNat
  let ymd := ord2ymd ord
  let sod := (e % 86400).toNat
  ⟨dowChars (ord % 7) ++ ' ' :: natDigits ymd.1 ++ '-' :: pad2 ymd.2.1 ++
   '-' :: pad2 ymd.2.2 ++ ' ' :: pad2 (sod / 3600) ++ ':' :: pad2 (sod % 3600 / 60) ++
   ':' :: pad2 (sod % 60) ++ ' ' :: label⟩

/-- The output shape `"<3-letter-dow> YYYY-MM-DD HH:MM:SS <tz-label>"`
claimed by the specification: three letters, a space, four digits, dashes
and two-digit fields, and a non-empty zone label. -/
def isShape (s : String) : Bool :=
  match s.data with
  | w1 :: w2 :: w3 :: ' ' :: y1 :: y2 :: y3 :: y4 :: '-' :: m1 :: m2 :: '-' ::
    d1 :: d2 :: ' ' :: h1 :: h2 :: ':' :: i1 :: i2 :: ':' :: s1 :: s2 :: ' ' :: label =>
    w1.isAlpha && w2.isAlpha && w3.isAlpha &&
    isDig y1 && isDig y2 && isDig y3 && isDig y4 &&
    isDig m1 && isDig m2 && isDig d1 && isDig d2 &&
    isDig h1 && isDig h2 && isDig i1 && isDig i2 && isDig s1 && isDig s2 &&
    !label.isEmpty
  | _ => false

/-- `epoch_to_human(epoch, target_tz)` (src/app.py lines 131-144):
`datetime.fromtimestamp` raises outside the `datetime` range (`none`);
otherwise render in the resolved zone, any zone-path exception (including
the zone-shifted wall time leaving the `datetime` range) falling back to
the UTC rendering with the literal suffix `UTC`. -/
def epoch_to_human (epoch : Int) (target_tz : Option String) : Option String :=
  if epoch < minTimestamp ∨ maxTimestamp < epoch then none
  else some (
    match target_tz with
    | none => fmtStamp epoch "UTC".data
    | some t =>
      if t.isEmpty then fmtStamp epoch "UTC".data
      else match normalize_timezone t with
        | none => fmtStamp epoch "UTC".data
        | some zid =>
          match tzdb zid with
          | none => fmtStamp epoch "UTC".data
          | some tbl =>
            let info := lookupInfo tbl epoch
            if epoch + info.1 < minTimestamp ∨ maxTimestamp < epoch + info.1 then
              fmtStamp epoch "UTC".data
            else fmtStamp (epoch + info.1) info.2.data)

theorem roundToFloat_eq_self {n : Int} (h : n.natAbs ≤ 9007199254740992) :
    roundToFloat n = n := by
  unfold roundToFloat
  simp [h]

end Timepuff

namespace Timepuff

/-- C2: the alternate-epoch offset constant is 233452800 Unix seconds
(1977-05-26T00:00:00Z), and the fixed conversion pair holds. -/
theorem C2_swet_epoch_offset :
    SWET_EPOCH_UNIX = 233452800 ∧
    unix_to_swet 1757509860 = 1524057060 ∧
    swet_to_unix 1524057060 = 1757509860 := by
  refine ⟨by decide, ?_, ?_⟩
  · rw [unix_to_swet, roundToFloat_eq_self (by decide)]; decide
  · rw [swet_to_unix, roundToFloat_eq_self (by decide)]; decide

/-- C1 counterexample: the round trip is not exact for every integer.  At
x = 2^53 + 1 = 9007199254740993 the conversion `int(float(x))` rounds to
2^53, so `swet_to_unix(unix_to_swet(x)) = 2^53 ≠ x`. -/
theorem C1_roundtrip_counterexample :
    ¬ swet_to_unix (unix_to_swet 9007199254740993) = 9007199254740993 := by
  decide

/-- C1 (amended): the alternate-epoch round trip is exact in both
directions for every integer of magnitude at most
2^53 - 233452800 = 9006965801988192 (inputs whose float image and whose
shifted value both stay in the exactly-representable range); integers
beyond the 53-bit significand can lose precision in `int(float(...))`. -/
theorem C1_roundtrip_amended (x : Int) (h : x.natAbs ≤ 9006965801988192) :
    swet_to_unix (unix_to_swet x) = x ∧ unix_to_swet (swet_to_unix x) = x := by
  have hC : SWET_EPOCH_UNIX = 233452800 := by decide
  have h1 : roundToFloat x = x := roundToFloat_eq_self (by omega)
  constructor
  · rw [unix_to_swet, h1, swet_to_unix,
      roundToFloat_eq_self (by rw [hC]; omega)]
    ring
  · rw [swet_to_unix, h1, unix_to_swet,
      roundToFloat_eq_self (by rw [hC]; omega)]
    ring

/-- Witness for C1 (amended) at x = 1757509860. -/
theorem C1_roundtrip_amended_witness :
    swet_to_unix (unix_to_swet 1757509860) = 1757509860 ∧
    unix_to_swet (swet_to_unix 1757509860) = 1757509860 :=
  C1_roundtrip_amended 1757509860 (by decide)

end Timepuff

namespace Timepuff

theorem minTimestamp_eq : minTimestamp = -62135596800 := by decide

theorem maxTimestamp_eq : maxTimestamp = 253402300799 := by decide

set_option maxHeartbeats 1000000 in
/-- C3: `human_to_epoch` with no zone token parses each of the four
supported layouts to the stated Unix seconds. -/
theorem C3_supported_formats :
    human_to_epoch "2025-09-10-131100" none = some 1757509860 ∧
    human_to_epoch "20250910131100" none = some 1757509860 ∧
    human_to_epoch "202509101311" none = some 1757509860 ∧
    human_to_epoch "12/25/2023 16:10" none = some 1703520600 := by
  refine ⟨by decide, by decide, by decide, by decide⟩

/-- C4: a string matching none of the four structural layouts, or matching
one structurally with calendar-invalid fields, makes `human_to_epoch`
raise the `ValueError` (`none`), for any zone token; in particular the
three listed inputs do. -/
theorem C4_invalid_format_error :
    (∀ (s : String) (tz : Option String),
      matches1 s.data = false → matches2 s.data = false → matches3 s.data = false →
      parse4 s.data = none → human_to_epoch s tz = none) ∧
    (∀ (s : String) (tz : Option String) (y mo dd hh mi ss : Nat),
      humanRawFields s = some (y, mo, dd, hh, mi, ss) →
      validDateTime y mo dd hh mi ss = false → human_to_epoch s tz = none) ∧
    human_to_epoch "invalid-date" none = none ∧
    human_to_epoch "2025-13-45-250000" none = none ∧
    human_to_epoch "not-a-date-at-all" none = none := by
  refine ⟨?_, ?_, by decide, by decide, by decide⟩
  · intro s tz h1 h2 h3 h4
    simp [human_to_epoch, humanFields, humanRawFields, h1, h2, h3, h4]
  · intro s tz y mo dd hh mi ss hraw hvalid
    simp [human_to_epoch, humanFields, hraw, hvalid]

/-- Witness for C4 at the concrete non-matching input "x". -/
theorem C4_invalid_format_error_witness : human_to_epoch "x" none = none :=
  C4_invalid_format_error.1 "x" none (by decide) (by decide) (by decide) (by decide)

end Timepuff

namespace Timepuff

/-- C5: an unresolvable zone token degrades silently to the UTC
interpretation: `human_to_epoch` returns the same value as with no token
(so it never raises because of the zone), and `epoch_to_human` renders the
UTC formatting with the literal suffix " UTC". -/
theorem C5_unresolved_zone_utc_fallback :
    (∀ (s t : String), normalize_timezone t = none →
      human_to_epoch s (some t) = human_to_epoch s none) ∧
    (∀ (e : Int) (t : String), normalize_timezone t = none →
      epoch_to_human e (some t) = epoch_to_human e none) ∧
    (∀ (e : Int) (t : String) (out : String), normalize_timezone t = none →
      epoch_to_human e (some t) = some out →
      ∃ p : List Char, out.data = p ++ [' ', 'U', 'T', 'C']) := by
  have hfmt : ∀ (e : Int), ∃ p : List Char,
      (fmtStamp e "UTC".data).data = p ++ [' ', 'U', 'T', 'C'] := by
    intro e
    refine ⟨dowChars (((719163 + e / 86400).toNat) % 7) ++
      ' ' :: natDigits (ord2ymd ((719163 + e / 86400).toNat)).1 ++
      '-' :: pad2 (ord2ymd ((719163 + e / 86400).toNat)).2.1 ++
      '-' :: pad2 (ord2ymd ((719163 + e / 86400).toNat)).2.2 ++
      ' ' :: pad2 ((e % 86400).toNat / 3600) ++
      ':' :: pad2 ((e % 86400).toNat % 3600 / 60) ++
      ':' :: pad2 ((e % 86400).toNat % 60), ?_⟩
    simp [fmtStamp]
  have hcase : ∀ (t : String), normalize_timezone t = none → t.isEmpty = true ∨
      (t.isEmpty = false ∧ normalize_timezone t = none) := by
    intro t ht
    cases h : t.isEmpty
    · exact Or.inr ⟨rfl, ht⟩
    · exact Or.inl rfl
  refine ⟨?_, ?_, ?_⟩
  · intro s t ht
    rcases hcase t ht with h | ⟨h, _⟩ <;>
      simp [human_to_epoch, localize_and_convert_to_utc, h, ht]
  · intro e t ht
    rcases hcase t ht with h | ⟨h, _⟩ <;> simp [epoch_to_human, h, ht]
  · intro e t out ht hout
    rcases hcase t ht with h | ⟨h, _⟩ <;>
      [skip; skip] <;>
      · simp [epoch_to_human, h, ht] at hout
        rcases hout with ⟨-, rfl⟩
        exact hfmt e

set_option maxHeartbeats 1000000 in
set_option maxRecDepth 40000 in
/-- Witness for C5 at token "xyz", input "2025-09-10-131100", epoch 0. -/
theorem C5_unresolved_zone_utc_fallback_witness :
    human_to_epoch "2025-09-10-131100" (some "xyz") =
      human_to_epoch "2025-09-10-131100" none ∧
    epoch_to_human 0 (some "xyz") = epoch_to_human 0 none :=
  ⟨C5_unresolved_zone_utc_fallback.1 "2025-09-10-131100" "xyz" (by decide),
   C5_unresolved_zone_utc_fallback.2.1 0 "xyz" (by decide)⟩

end Timepuff

namespace Timepuff

/-- C6 counterexample: `epoch_to_human` is not total.  At epoch
253402300800 (one second past 9999-12-31T23:59:59Z)
`datetime.fromtimestamp` raises outside any try/except, even with no zone
token. -/
theorem C6_total_counterexample : epoch_to_human 253402300800 none = none := by
  decide

/-- C6 (amended): `epoch_to_human` returns a formatted string and never
raises for every epoch within the `datetime` range
-62135596800 ≤ epoch ≤ 253402300799 and every zone token (any internal
zone error falls back to the UTC rendering); outside that range
`datetime.fromtimestamp` raises. -/
theorem C6_total_amended (e : Int) (tz : Option String)
    (h1 : -62135596800 ≤ e) (h2 : e ≤ 253402300799) :
    (epoch_to_human e tz).isSome = true := by
  rw [epoch_to_human.eq_def, if_neg]
  · simp
  · rw [minTimestamp_eq, maxTimestamp_eq]
    omega

/-- Witness for C6 (amended) at epoch 1757509860 with token "jst". -/
theorem C6_total_amended_witness :
    (epoch_to_human 1757509860 (some "jst")).isSome = true :=
  C6_total_amended 1757509860 (some "jst") (by decide) (by decide)

set_option maxHeartbeats 1000000 in
set_option maxRecDepth 40000 in
/-- C7: `normalize_timezone` maps every table entry (case-insensitively,
after trimming) to its canonical identifier; a token not in the table
whose trimmed lower-casing is a valid identifier of the host zone database
is returned (as that trimmed lower-cased token); any other token yields
`None`. -/
theorem C7_normalize_timezone :
    (∀ (t k v : String), (k, v) ∈ tzMap → pyStrip (pyLower t) = k →
      t.isEmpty = false → normalize_timezone t = some v) ∧
    (∀ (t : String), t.isEmpty = false →
      tzMap.lookup (pyStrip (pyLower t)) = none →
      validZoneNamesLower.contains (pyStrip (pyLower t)) = true →
      normalize_timezone t = some (pyStrip (pyLower t))) ∧
    (∀ (t : String),
      tzMap.lookup (pyStrip (pyLower t)) = none →
      validZoneNamesLower.contains (pyStrip (pyLower t)) = false →
      normalize_timezone t = none) := by
  refine ⟨?_, ?_, ?_⟩
  · intro t k v hmem hnorm hne
    have hlk : tzMap.lookup (pyStrip (pyLower t)) = some v := by
      rw [hnorm]
      fin_cases hmem <;> decide
    simp [normalize_timezone, hne, hlk]
  · intro t hne hlk hvalid
    simp [normalize_timezone, hne, hlk]
    simpa using hvalid
  · intro t hlk hvalid
    cases hne : t.isEmpty
    · simp [normalize_timezone, hne, hlk]
      simpa using hvalid
    · simp [normalize_timezone, hne]

set_option maxHeartbeats 1000000 in
set_option maxRecDepth 40000 in
/-- Witness for C7: " PST " maps to America/Los_Angeles,
"America/Los_Angeles" passes through (lower-cased), "xyz" is unresolved. -/
theorem C7_normalize_timezone_witness :
    normalize_timezone " PST " = some "America/Los_Angeles" ∧
    normalize_timezone "America/Los_Angeles" = some "america/los_angeles" ∧
    normalize_timezone "xyz" = none :=
  ⟨C7_normalize_timezone.1 " PST " "pst" "America/Los_Angeles" (by decide)
      (by decide) (by decide),
   by
    have h := C7_normalize_timezone.2.1 "America/Los_Angeles" (by decide)
      (by decide) (by decide)
    rw [h]; decide,
   C7_normalize_timezone.2.2 "xyz" (by decide) (by decide)⟩

end Timepuff

namespace Timepuff

/-- C8 counterexample: the output does not always have a four-digit year.
At the minimal epoch (-62135596800, i.e. 0001-01-01T00:00:00Z) glibc `%Y`
renders the year as the single digit "1". -/
theorem C8_shape_counterexample :
    epoch_to_human (-62135596800) none = some "Mon 1-01-01 00:00:00 UTC" ∧
    isShape "Mon 1-01-01 00:00:00 UTC" = false :=
  ⟨by decide, by decide⟩

set_option maxHeartbeats 2000000 in
set_option maxRecDepth 40000 in
/-- C9 counterexample: at the DST-ambiguous local time 2025-11-02 01:30:00
(`pytz` raises `AmbiguousTimeError`, which `human_to_epoch` catches and
degrades to the UTC interpretation) the two conversions coincide, so the
difference is 0 seconds, neither 7×3600 nor 8×3600. -/
theorem C9_offset_counterexample :
    human_to_epoch "2025-11-02-013000" none = some 1762047000 ∧
    human_to_epoch "2025-11-02-013000" (some "America/Los_Angeles") =
      some 1762047000 ∧
    ¬(((1762047000 : Int) - 1762047000).natAbs = 7 * 3600 ∨
      ((1762047000 : Int) - 1762047000).natAbs = 8 * 3600) :=
  ⟨by decide, by decide, by decide⟩

end Timepuff

namespace Timepuff

theorem numAt_append_00 {s : List Char} (hlen : s.length = 12) {st ln : Nat}
    (h : st + ln ≤ 12) : numAt (s ++ ['0', '0']) st ln = numAt s st ln := by
  unfold numAt
  rw [List.drop_append_of_le_length (by omega),
    List.take_append_of_le_length (by rw [List.length_drop]; omega)]

theorem fields2_append_00 {s : List Char} (hlen : s.length = 12) :
    fields2 (s ++ ['0', '0']) = fields3 s := by
  unfold fields2 fields3
  rw [numAt_append_00 hlen (by omega), numAt_append_00 hlen (by omega),
    numAt_append_00 hlen (by omega), numAt_append_00 hlen (by omega),
    numAt_append_00 hlen (by omega)]
  have hlast : numAt (s ++ ['0', '0']) 12 2 = 0 := by
    unfold numAt
    rw [List.drop_append_of_le_length (by omega),
      List.drop_eq_nil_of_le (by omega)]
    rfl
  rw [hlast]

/-- C10: for a 12-digit `YYYYMMDDHHMM` string, appending "00" (the HTTP
layer's normalization into the 14-digit layout) never changes
`human_to_epoch`, for any zone token: the 12-digit layout is the 14-digit
layout with seconds 00. -/
theorem C10_append_seconds (s : String) (tz : Option String)
    (h : matches3 s.data = true) :
    human_to_epoch (s ++ "00") tz = human_to_epoch s tz := by
  have hd : (s ++ "00").data = s.data ++ ['0', '0'] := rfl
  have hlh : s.data.length = 12 ∧ s.data.all isDig = true := by
    simpa [matches3] using h
  obtain ⟨hlen, hdig⟩ := hlh
  have h17 : matches1 (s ++ "00").data = false := by
    rw [hd]; simp [matches1, hlen]
  have h14 : matches2 (s ++ "00").data = true := by
    rw [hd]; simp [matches2, hlen, List.all_append, hdig]; decide
  have m1f : matches1 s.data = false := by simp [matches1, hlen]
  have m2f : matches2 s.data = false := by simp [matches2, hlen]
  have hfields : fields2 (s ++ "00").data = fields3 s.data := by
    rw [hd]; exact fields2_append_00 hlen
  simp only [human_to_epoch, humanFields, humanRawFields, h17, h14, m1f, m2f, h,
    Bool.false_eq_true, if_false, if_true, hfields]

/-- Witness for C10 at s = "202509101311". -/
theorem C10_append_seconds_witness :
    human_to_epoch ("202509101311" ++ "00") none = human_to_epoch "202509101311" none :=
  C10_append_seconds "202509101311" none (by decide)

end Timepuff

namespace Timepuff

theorem lookupInfo_mem : ∀ (tbl : List (Int × Int × String)) (x : Int), tbl ≠ [] →
    lookupInfo tbl x ∈ tbl.map (fun e => (e.2.1, e.2.2))
  | [], _, h => absurd rfl h
  | [(t, o, nm)], x, _ => by simp [lookupInfo]
  | (t, o, nm) :: (t2, o2, n2) :: rest, x, _ => by
    rw [lookupInfo]
    split
    · simp
    · have ih := lookupInfo_mem ((t2, o2, n2) :: rest) x (by simp)
      simp only [List.map_cons] at ih ⊢
      exact List.mem_cons_of_mem _ ih

theorem lookupInfo_cons_of_le (t o : Int) (nm : String) (b : Int × Int × String)
    (rest : List (Int × Int × String)) (x : Int) (h : b.1 ≤ x) :
    lookupInfo ((t, o, nm) :: b :: rest) x = lookupInfo (b :: rest) x := by
  obtain ⟨t2, o2, n2⟩ := b
  rw [lookupInfo, if_neg (by simp at h ⊢; omega)]

set_option maxHeartbeats 2000000 in
set_option maxRecDepth 100000 in
/-- After the first real transition (1883-11-18, UTC second -2717640000)
every America/Los_Angeles offset is PST (-28800) or PDT/PWT/PPT (-25200). -/
theorem LA_lookup_offset (x : Int) (hx : -2717640000 ≤ x) :
    (lookupInfo LA_table x).1 = -28800 ∨ (lookupInfo LA_table x).1 = -25200 := by
  rw [show LA_table = (-62135596800, -28380, "LMT") :: LA_table.tail from rfl]
  rw [show LA_table.tail =
    (-2717640000, -28800, "PST") :: LA_table.tail.tail from rfl]
  rw [lookupInfo_cons_of_le _ _ _ _ _ x (by simpa using hx)]
  have hmem := lookupInfo_mem ((-2717640000, -28800, "PST") :: LA_table.tail.tail)
    x (by simp)
  have hall : (((-2717640000, -28800, "PST") :: LA_table.tail.tail).all
      (fun e => e.2.1 == -28800 || e.2.1 == -25200)) = true := by decide
  simp only [List.mem_map] at hmem
  obtain ⟨ent, hent, heq⟩ := hmem
  have hb := List.all_eq_true.mp hall ent hent
  rw [← heq]
  simp only [Bool.or_eq_true, beq_iff_eq] at hb
  exact hb

set_option maxHeartbeats 2000000 in
set_option maxRecDepth 100000 in
/-- Every America/Los_Angeles table entry has a small negative offset and a
non-empty abbreviation. -/
theorem LA_lookup_props (x : Int) :
    -86400 ≤ (lookupInfo LA_table x).1 ∧ (lookupInfo LA_table x).1 ≤ 0 ∧
    (lookupInfo LA_table x).2 ≠ "" := by
  have hmem := lookupInfo_mem LA_table x (by decide)
  have hall : (LA_table.all
      (fun e => (-86400 ≤ e.2.1 && e.2.1 ≤ 0) && !(e.2.2 == ""))) = true := by decide
  simp only [List.mem_map] at hmem
  obtain ⟨ent, hent, heq⟩ := hmem
  have hb := List.all_eq_true.mp hall ent hent
  rw [← heq]
  simp only [Bool.and_eq_true, Bool.not_eq_true', beq_eq_false_iff_ne, ne_eq,
    decide_eq_true_eq] at hb
  exact ⟨hb.1.1, hb.1.2, hb.2⟩

end Timepuff

namespace Timepuff

/-- A successful localize probe (for 1884+ wall times) yields a PST or PDT
offset. -/
theorem pytzProbe_result {n δ c : Int} (hδ : δ = -86400 ∨ δ = 86400)
    (hn : -2713910400 ≤ n) (h : pytzProbe LA_table n δ = some (some c)) :
    c = -28800 ∨ c = -25200 := by
  have h1 : -2717640000 ≤ n + δ := by rcases hδ with rfl | rfl <;> omega
  have hoff1 := LA_lookup_offset (n + δ) h1
  have hc : c = offAt LA_table (n - offAt LA_table (n + δ)) := by
    unfold pytzProbe at h
    split_ifs at h <;> simp_all
    all_goals obtain ⟨g1, g2, g3⟩ := h
    all_goals split_ifs at g3 <;> simp_all
  have h2 : -2717640000 ≤ n - (lookupInfo LA_table (n + δ)).1 := by
    rcases hoff1 with h' | h' <;> rw [h'] <;> omega
  have h3 := LA_lookup_offset _ h2
  rw [hc]
  exact h3

/-- A successful `localize` (for 1884+ wall times) chooses a PST or PDT
offset. -/
theorem pytzLocalize_some_inv {tbl : List (Int × Int × String)} {n off : Int}
    (h : pytzLocalize tbl n = some off) :
    pytzProbe tbl n (-86400) = some (some off) ∨
    pytzProbe tbl n 86400 = some (some off) := by
  unfold pytzLocalize at h
  rcases hp1 : pytzProbe tbl n (-86400) with _ | (_ | o1) <;>
    rcases hp2 : pytzProbe tbl n 86400 with _ | (_ | o2) <;>
    simp [hp1, hp2] at h
  · simp [h]
  · simp [h]
  · exact Or.inl (by rw [h.2])

/-- A successful `localize` (for 1884+ wall times) chooses a PST or PDT
offset. -/
theorem pytzLocalize_LA {n off : Int} (hn : -2713910400 ≤ n)
    (h : pytzLocalize LA_table n = some off) : off = -28800 ∨ off = -25200 := by
  rcases pytzLocalize_some_inv h with hp | hp
  · exact pytzProbe_result (Or.inl rfl) hn hp
  · exact pytzProbe_result (Or.inr rfl) hn hp

/-- Successfully parsed fields are calendar-valid. -/
theorem humanFields_valid {s : String} {y mo dd hh mi ss : Nat}
    (h : humanFields s = some (y, mo, dd, hh, mi, ss)) :
    validDateTime y mo dd hh mi ss = true := by
  unfold humanFields at h
  rcases hraw : humanRawFields s with _ | f
  · rw [hraw] at h; exact absurd h (by simp)
  · rw [hraw] at h
    obtain ⟨y', mo', dd', hh', mi', ss'⟩ := f
    dsimp only at h
    split_ifs at h with hv
    simp only [Option.some.injEq, Prod.mk.injEq] at h
    obtain ⟨rfl, rfl, rfl, rfl, rfl, rfl⟩ := h
    exact hv

theorem daysBeforeYear_mono {a b : Nat} (h : a ≤ b) :
    daysBeforeYear a ≤ daysBeforeYear b := by
  induction b with
  | zero =>
    have : a = 0 := by omega
    subst this; exact le_refl _
  | succ k ih =>
    rcases Nat.lt_or_ge a (k + 1) with h' | h'
    · have := ih (by omega)
      have hstep : daysBeforeYear k ≤ daysBeforeYear (k + 1) := by
        unfold daysBeforeYear
        omega
      omega
    · have : a = k + 1 := by omega
      subst this; exact le_refl _

/-- A valid datetime with year ≥ 1884 has timestamp ≥ 1884-01-01T00:00:00Z. -/
theorem utcTimestamp_lb {y mo dd hh mi ss : Nat}
    (hv : validDateTime y mo dd hh mi ss = true) (hy : 1884 ≤ y) :
    -2713910400 ≤ utcTimestamp y mo dd hh mi ss := by
  simp only [validDateTime, Bool.and_eq_true, decide_eq_true_eq] at hv
  have hb : daysBeforeYear 1884 ≤ daysBeforeYear y := daysBeforeYear_mono hy
  have h84 : daysBeforeYear 1884 = 687751 := by decide
  have hE : EPOCH_ORDINAL = 719163 := by decide
  unfold utcTimestamp toOrdinal
  rw [hE]
  omega

end Timepuff

namespace Timepuff

set_option maxHeartbeats 2000000 in
set_option maxRecDepth 100000 in
/-- C9 (amended): for a successfully parsed string with year ≥ 1884, when
`pytz`'s localize succeeds the America/Los_Angeles conversion differs from
the UTC one by exactly 7×3600 or 8×3600 seconds; when the wall time is
DST-ambiguous or nonexistent (or at the `datetime` range edges) the
localize exception is swallowed and the two conversions coincide (0
difference). -/
theorem C9_tz_offset_amended (s : String) (y mo dd hh mi ss : Nat)
    (hp : humanFields s = some (y, mo, dd, hh, mi, ss)) (hy : 1884 ≤ y) :
    ∃ a b : Int, human_to_epoch s none = some a ∧
      human_to_epoch s (some "America/Los_Angeles") = some b ∧
      (∀ off, pytzLocalize LA_table (utcTimestamp y mo dd hh mi ss) = some off →
        (a - b).natAbs = 25200 ∨ (a - b).natAbs = 28800) ∧
      (pytzLocalize LA_table (utcTimestamp y mo dd hh mi ss) = none → a = b) := by
  have hv := humanFields_valid hp
  have hnb : -2713910400 ≤ utcTimestamp y mo dd hh mi ss := utcTimestamp_lb hv hy
  have hA : human_to_epoch s none = some (utcTimestamp y mo dd hh mi ss) := by
    simp [human_to_epoch, hp, localize_and_convert_to_utc]
  have hnorm : normalize_timezone "America/Los_Angeles" = some "america/los_angeles" := by
    decide
  have htz : tzdb "america/los_angeles" = some LA_table := by decide
  have hne : "America/Los_Angeles".isEmpty = false := by decide
  rcases hloc : pytzLocalize LA_table (utcTimestamp y mo dd hh mi ss) with _ | off
  · refine ⟨utcTimestamp y mo dd hh mi ss, utcTimestamp y mo dd hh mi ss, hA, ?_, ?_, ?_⟩
    · simp [human_to_epoch, hp, localize_and_convert_to_utc, hnorm, htz, hloc, hne]
    · intro off hoff
      exact absurd hoff (by simp)
    · intro
      rfl
  · have hoff := pytzLocalize_LA hnb hloc
    refine ⟨utcTimestamp y mo dd hh mi ss, utcTimestamp y mo dd hh mi ss - off, hA, ?_, ?_, ?_⟩
    · simp [human_to_epoch, hp, localize_and_convert_to_utc, hnorm, htz, hloc, hne]
    · intro off' _
      have : utcTimestamp y mo dd hh mi ss - (utcTimestamp y mo dd hh mi ss - off) = off := by
        ring
      rw [this]
      rcases hoff with rfl | rfl
      · right; rfl
      · left; rfl
    · intro hnone
      exact absurd hnone (by simp)

set_option maxHeartbeats 2000000 in
set_option maxRecDepth 100000 in
/-- Witness for C9 (amended) at "2025-09-10-131100" (a PDT instant). -/
theorem C9_tz_offset_amended_witness :
    ∃ a b : Int, human_to_epoch "2025-09-10-131100" none = some a ∧
      human_to_epoch "2025-09-10-131100" (some "America/Los_Angeles") = some b ∧
      (∀ off, pytzLocalize LA_table (utcTimestamp 2025 9 10 13 11 0) = some off →
        (a - b).natAbs = 25200 ∨ (a - b).natAbs = 28800) ∧
      (pytzLocalize LA_table (utcTimestamp 2025 9 10 13 11 0) = none → a = b) :=
  C9_tz_offset_amended "2025-09-10-131100" 2025 9 10 13 11 0 (by decide) (by decide)

end Timepuff

namespace Timepuff

theorem daysBeforeYear_succ_ge (x : Nat) (hx : 1 ≤ x) :
    daysBeforeYear x + 365 ≤ daysBeforeYear (x + 1) := by
  unfold daysBeforeYear
  omega

theorem dBY_eval_sp4 (q1 q2 q3 : Nat) (h2 : q2 ≤ 3) (h3 : q3 ≤ 23) :
    daysBeforeYear (400 * q1 + 100 * q2 + 4 * q3 + 4) =
      146097 * q1 + 36524 * q2 + 1461 * q3 + 1095 := by
  unfold daysBeforeYear
  omega

theorem dBY_eval_sp4_succ (q1 q2 q3 : Nat) (h2 : q2 ≤ 3) (h3 : q3 ≤ 23) :
    daysBeforeYear (400 * q1 + 100 * q2 + 4 * q3 + 4 + 1) =
      146097 * q1 + 36524 * q2 + 1461 * q3 + 1461 := by
  unfold daysBeforeYear
  omega

theorem dBY_eval_sp100 (q1 : Nat) :
    daysBeforeYear (400 * q1 + 400) = 146097 * q1 + 145731 := by
  unfold daysBeforeYear
  omega

theorem dBY_eval_sp100_succ (q1 : Nat) :
    daysBeforeYear (400 * q1 + 400 + 1) = 146097 * q1 + 146097 := by
  unfold daysBeforeYear
  omega

theorem dBY_eval_main (q1 q2 q3 q4 : Nat) (h2 : q2 ≤ 3) (h3 : q3 ≤ 24)
    (h4 : q4 ≤ 3) :
    daysBeforeYear (400 * q1 + 100 * q2 + 4 * q3 + q4 + 1) =
      146097 * q1 + 36524 * q2 + 1461 * q3 + 365 * q4 := by
  unfold daysBeforeYear
  omega

set_option maxHeartbeats 4000000 in
/-- CPython `_ord2ymd` year correctness: the ordinal `n` falls inside the
returned year (strictly after the days preceding it, and no later than its
last day). -/
theorem ord2ymd_year_bounds {n : Nat} (hn : 1 ≤ n) :
    daysBeforeYear (ord2ymd n).1 < n ∧ n ≤ daysBeforeYear ((ord2ymd n).1 + 1) := by
  simp only [ord2ymd]
  obtain ⟨q1, r1, hd1, hb1⟩ : ∃ q r, n - 1 = 146097 * q + r ∧ r < 146097 :=
    ⟨(n - 1) / 146097, (n - 1) % 146097, by omega, by omega⟩
  rw [show (n - 1) / 146097 = q1 by omega, show (n - 1) % 146097 = r1 by omega]
  obtain ⟨q2, r2, hd2, hb2⟩ : ∃ q r, r1 = 36524 * q + r ∧ r < 36524 :=
    ⟨r1 / 36524, r1 % 36524, by omega, by omega⟩
  rw [show r1 / 36524 = q2 by omega, show r1 % 36524 = r2 by omega]
  obtain ⟨q3, r3, hd3, hb3⟩ : ∃ q r, r2 = 1461 * q + r ∧ r < 1461 :=
    ⟨r2 / 1461, r2 % 1461, by omega, by omega⟩
  rw [show r2 / 1461 = q3 by omega, show r2 % 1461 = r3 by omega]
  obtain ⟨q4, r4, hd4, hb4⟩ : ∃ q r, r3 = 365 * q + r ∧ r < 365 :=
    ⟨r3 / 365, r3 % 365, by omega, by omega⟩
  rw [show r3 / 365 = q4 by omega, show r3 % 365 = r4 by omega]
  split_ifs with hsp
  · dsimp only
    rcases hsp with h4 | h100
    · have hc2 : q2 ≤ 3 := by omega
      have hc3 : q3 ≤ 23 := by omega
      have hc0 : r4 = 0 := by omega
      rw [show q1 * 400 + q2 * 100 + q3 * 4 + q4 + 1 - 1 =
          400 * q1 + 100 * q2 + 4 * q3 + 4 by omega]
      rw [dBY_eval_sp4 q1 q2 q3 hc2 hc3, dBY_eval_sp4_succ q1 q2 q3 hc2 hc3]
      omega
    · have hc : r2 = 0 ∧ q3 = 0 ∧ r3 = 0 ∧ q4 = 0 ∧ r4 = 0 := by omega
      rw [show q1 * 400 + q2 * 100 + q3 * 4 + q4 + 1 - 1 = 400 * q1 + 400 by omega]
      rw [dBY_eval_sp100 q1, dBY_eval_sp100_succ q1]
      omega
  · dsimp only
    have hc4 : q4 ≤ 3 := by omega
    have hc2 : q2 ≤ 3 := by omega
    have hc3 : q3 ≤ 24 := by omega
    rw [show q1 * 400 + q2 * 100 + q3 * 4 + q4 + 1 =
        400 * q1 + 100 * q2 + 4 * q3 + q4 + 1 by omega]
    rw [dBY_eval_main q1 q2 q3 q4 hc2 hc3 hc4]
    have e1 := dBY_eval_main q1 q2 q3 q4 hc2 hc3 hc4
    have e2 := daysBeforeYear_succ_ge (400 * q1 + 100 * q2 + 4 * q3 + q4 + 1) (by omega)
    omega

end Timepuff

namespace Timepuff

theorem monthScan_fst_le : ∀ (ms : List Nat) (m doy : Nat),
    (monthScan m ms doy).1 ≤ m + ms.length
  | [], m, doy => by simp [monthScan]
  | dim :: rest, m, doy => by
    rw [monthScan]
    split_ifs with hc
    · simp
    · have ih := monthScan_fst_le rest (m + 1) (doy - dim)
      simp only [List.length_cons]
      omega

theorem monthScan_snd_le : ∀ (ms : List Nat) (m doy : Nat),
    (∀ dim ∈ ms, dim ≤ 31) →
    (monthScan m ms doy).2 ≤ max (doy - ms.sum) 31
  | [], m, doy, _ => by
    simp only [monthScan, List.sum_nil]
    omega
  | dim :: rest, m, doy, hdims => by
    rw [monthScan]
    split_ifs with hc
    · have := hdims dim (by simp)
      simp only []
      omega
    · have ih := monthScan_snd_le rest (m + 1) (doy - dim)
        (fun d hd => hdims d (List.mem_cons_of_mem _ hd))
      simp only [List.sum_cons]
      omega

theorem findMonth_bounds {y doy : Nat} (h : doy ≤ 365) :
    (findMonth y doy).1 ≤ 99 ∧ (findMonth y doy).2 ≤ 99 := by
  unfold findMonth
  constructor
  · have h1 := monthScan_fst_le
      [31, if isLeap y then 29 else 28, 31, 30, 31, 30, 31, 31, 30, 31, 30] 1 doy
    simp only [List.length_cons, List.length_nil] at h1
    omega
  · have h2 := monthScan_snd_le
      [31, if isLeap y then 29 else 28, 31, 30, 31, 30, 31, 31, 30, 31, 30] 1 doy
      (by intro dim hdim
          simp only [List.mem_cons, List.not_mem_nil, or_false] at hdim
          rcases hdim with rfl | rfl | rfl | rfl | rfl | rfl | rfl | rfl | rfl | rfl | rfl <;>
            first
              | omega
              | (split_ifs <;> omega))
    have hsum : 334 ≤
        ([31, if isLeap y then 29 else 28, 31, 30, 31, 30, 31, 31, 30, 31, 30] :
          List Nat).sum := by
      simp only [List.sum_cons, List.sum_nil]
      split_ifs <;> omega
    omega

theorem ord2ymd_md_bounds (n : Nat) :
    (ord2ymd n).2.1 ≤ 99 ∧ (ord2ymd n).2.2 ≤ 99 := by
  simp only [ord2ymd]
  split_ifs with hsp
  · dsimp only
    exact ⟨by omega, by omega⟩
  · dsimp only
    exact findMonth_bounds (by omega)

end Timepuff

namespace Timepuff

theorem digitChar_isDig {k : Nat} (h : k ≤ 9) : isDig (digitChar k) = true := by
  interval_cases k <;> decide

theorem natDigits_two {m : Nat} (h1 : 10 ≤ m) (h2 : m ≤ 99) :
    natDigits m = [digitChar (m / 10), digitChar (m % 10)] := by
  have c1 : ¬ m < 10 := by omega
  have c2 : m / 10 < 10 := by omega
  unfold natDigits
  simp only [natDigitsAux, c1, c2, if_true, if_false, List.nil_append,
    List.cons_append, ite_true, ite_false]

theorem natDigits_four {m : Nat} (h1 : 1000 ≤ m) (h2 : m ≤ 9999) :
    natDigits m = [digitChar (m / 10 / 10 / 10), digitChar (m / 10 / 10 % 10),
      digitChar (m / 10 % 10), digitChar (m % 10)] := by
  have c1 : ¬ m < 10 := by omega
  have c2 : ¬ m / 10 < 10 := by omega
  have c3 : ¬ m / 10 / 10 < 10 := by omega
  have c4 : m / 10 / 10 / 10 < 10 := by omega
  unfold natDigits
  simp only [natDigitsAux, c1, c2, c3, c4, if_true, if_false, List.nil_append,
    List.cons_append, ite_true, ite_false]

theorem pad2_shape {m : Nat} (h : m ≤ 99) :
    ∃ a b, pad2 m = [a, b] ∧ isDig a = true ∧ isDig b = true := by
  unfold pad2
  split_ifs with h10
  · exact ⟨'0', digitChar m, rfl, by decide, digitChar_isDig (by omega)⟩
  · exact ⟨digitChar (m / 10), digitChar (m % 10), natDigits_two (by omega) h,
      digitChar_isDig (by omega), digitChar_isDig (by omega)⟩

end Timepuff

namespace Timepuff

set_option maxHeartbeats 2000000 in
theorem fmtStamp_shape (e : Int) (label : List Char) (hlab : label ≠ [])
    (hy1 : 1000 ≤ (ord2ymd (719163 + e / 86400).toNat).1)
    (hy2 : (ord2ymd (719163 + e / 86400).toNat).1 ≤ 9999) :
    isShape (fmtStamp e label) = true := by
  obtain ⟨lc, lcs, rfl⟩ : ∃ c cs, label = c :: cs := by
    cases label with
    | nil => exact absurd rfl hlab
    | cons c cs => exact ⟨c, cs, rfl⟩
  simp only [fmtStamp]
  set ord := (719163 + e / 86400).toNat with hord
  set sod := (e % 86400).toNat with hsod
  have hsodb : sod ≤ 86399 := by
    omega
  obtain ⟨hm99, hd99⟩ := ord2ymd_md_bounds ord
  obtain ⟨m1, m2, hmo, hm1, hm2⟩ := pad2_shape hm99
  obtain ⟨d1, d2, hdd, hd1, hd2⟩ := pad2_shape hd99
  obtain ⟨a1, a2, hhh, ha1, ha2⟩ := pad2_shape (show sod / 3600 ≤ 99 by omega)
  obtain ⟨i1, i2, hmi, hi1, hi2⟩ := pad2_shape (show sod % 3600 / 60 ≤ 99 by omega)
  obtain ⟨s1, s2, hss, hs1, hs2⟩ := pad2_shape (show sod % 60 ≤ 99 by omega)
  have hy4a : isDig (digitChar ((ord2ymd ord).1 / 10 / 10 / 10)) = true :=
    digitChar_isDig (by omega)
  have hy4b : isDig (digitChar ((ord2ymd ord).1 / 10 / 10 % 10)) = true :=
    digitChar_isDig (by omega)
  have hy4c : isDig (digitChar ((ord2ymd ord).1 / 10 % 10)) = true :=
    digitChar_isDig (by omega)
  have hy4d : isDig (digitChar ((ord2ymd ord).1 % 10)) = true :=
    digitChar_isDig (by omega)
  rw [natDigits_four hy1 hy2, hmo, hdd, hhh, hmi, hss]
  obtain ⟨w, hw7, hweq⟩ : ∃ w, w < 7 ∧ ord % 7 = w :=
    ⟨ord % 7, Nat.mod_lt _ (by omega), rfl⟩
  rw [hweq]
  interval_cases w <;>
    simp [isShape, dowChars, hm1, hm2, hd1, hd2, ha1, ha2, hi1, hi2, hs1, hs2,
      hy4a, hy4b, hy4c, hy4d]

end Timepuff

namespace Timepuff

theorem year_in_range {e : Int} (h1 : -30610224000 ≤ e) (h2 : e ≤ 253402300799) :
    1000 ≤ (ord2ymd (719163 + e / 86400).toNat).1 ∧
    (ord2ymd (719163 + e / 86400).toNat).1 ≤ 9999 := by
  have hnb : 364878 ≤ (719163 + e / 86400).toNat ∧
      (719163 + e / 86400).toNat ≤ 3652059 := by omega
  obtain ⟨hb1, hb2⟩ := ord2ymd_year_bounds
    (n := (719163 + e / 86400).toNat) (by omega)
  constructor
  · by_contra hlt
    push_neg at hlt
    have hm := daysBeforeYear_mono
      (show (ord2ymd (719163 + e / 86400).toNat).1 + 1 ≤ 1000 by omega)
    have h1000 : daysBeforeYear 1000 = 364877 := by decide
    omega
  · by_contra hgt
    push_neg at hgt
    have hm := daysBeforeYear_mono
      (show 10000 ≤ (ord2ymd (719163 + e / 86400).toNat).1 by omega)
    have h10000 : daysBeforeYear 10000 = 3652059 := by decide
    omega

end Timepuff

namespace Timepuff

set_option maxHeartbeats 2000000 in
set_option maxRecDepth 100000 in
/-- C8 (amended): `epoch_to_human(1757509860)` is exactly
"Wed 2025-09-10 13:11:00 UTC"; and for every epoch between
1000-01-02T00:00:00Z and 9999-12-31T23:59:59Z (so the rendered year keeps
four digits even after a zone shift) with a zone token that is absent,
unresolvable, or resolves to America/Los_Angeles, the output has the fixed
shape `"<3-letter-dow> YYYY-MM-DD HH:MM:SS <tz-label>"`.  For years below
1000 glibc's `%Y` emits fewer than four digits (see the counterexample). -/
theorem C8_format_amended :
    epoch_to_human 1757509860 none = some "Wed 2025-09-10 13:11:00 UTC" ∧
    (∀ (e : Int) (tz : Option String),
      -30610137600 ≤ e → e ≤ 253402300799 →
      (tz = none ∨ ∃ t, tz = some t ∧
        (normalize_timezone t = none ∨
         (∃ zid, normalize_timezone t = some zid ∧ tzdb zid = some LA_table))) →
      ∃ out, epoch_to_human e tz = some out ∧ isShape out = true) := by
  constructor
  · decide
  intro e tz he1 he2 htz
  have hrange : ¬(e < minTimestamp ∨ maxTimestamp < e) := by
    rw [minTimestamp_eq, maxTimestamp_eq]
    push_neg
    constructor <;> omega
  have hshapeUTC : isShape (fmtStamp e "UTC".data) = true :=
    fmtStamp_shape e "UTC".data (by decide)
      (year_in_range (by omega) (by omega)).1
      (year_in_range (by omega) (by omega)).2
  rcases htz with rfl | ⟨t, rfl, hres⟩
  · refine ⟨fmtStamp e "UTC".data, ?_, hshapeUTC⟩
    rw [epoch_to_human.eq_def, if_neg hrange]
  · rcases hres with hnone | ⟨zid, hzid, htbl⟩
    · refine ⟨fmtStamp e "UTC".data, ?_, hshapeUTC⟩
      rw [epoch_to_human.eq_def, if_neg hrange]
      cases ht : t.isEmpty <;> simp [ht, hnone]
    · have ht : t.isEmpty = false := by
        cases ht : t.isEmpty
        · rfl
        · rw [normalize_timezone, if_pos ht] at hzid
          exact absurd hzid (by simp)
      have hprops := LA_lookup_props e
      have hlocal : ¬(e + (lookupInfo LA_table e).1 < minTimestamp ∨
          maxTimestamp < e + (lookupInfo LA_table e).1) := by
        rw [minTimestamp_eq, maxTimestamp_eq]
        push_neg
        constructor <;> omega
      have hlabel : (lookupInfo LA_table e).2.data ≠ [] := by
        intro hd
        exact hprops.2.2 (String.ext (by rw [hd]))
      refine ⟨fmtStamp (e + (lookupInfo LA_table e).1) (lookupInfo LA_table e).2.data,
        ?_, ?_⟩
      · rw [epoch_to_human.eq_def, if_neg hrange]
        simp [ht, hzid, htbl, hlocal]
      · exact fmtStamp_shape _ _ hlabel
          (year_in_range (e := e + (lookupInfo LA_table e).1) (by omega) (by omega)).1
          (year_in_range (e := e + (lookupInfo LA_table e).1) (by omega) (by omega)).2

/-- Witness for C8 (amended) at epoch 1757509860 with no zone token. -/
theorem C8_format_amended_witness :
    ∃ out, epoch_to_human 1757509860 none = some out ∧ isShape out = true :=
  C8_format_amended.2 1757509860 none (by decide) (by decide) (Or.inl rfl)

end Timepuff
